import Mathlib

/-!
Verification of the Grid Trading Engine (`GridTrading` in `src/utils.py`).

Shallow embedding conventions:
* Python floats are modelled as exact rationals (`ℚ`); the spec's numeric
  statements are stated exactly.
* Python `int` is modelled as `Int`.
* The grid dictionary is the structure `Grid`; the engine's
  `self.active_grids` / `self.grid_tasks` are the fields of `EngineState`
  (an association list keyed by grid id, matching Python dict semantics of
  replace-on-assign, and a list of task keys).
* Effectful gateway calls (`api_client.*`) are modelled by oracle inputs:
  each limit-order placement consumes one `PlaceOutcome` from an oracle
  `Nat → PlaceOutcome` indexed by a running call counter; the market-probe
  price discovery is a `Discovery` input; `cancel_all_orders` is a
  `CancelOutcome` input.  `exn` variants model a raised exception, which the
  source catches with `try/except` and treats as a logged failure.
* Wall-clock `time.time()` is a `now : ℚ` input; `uuid`-based id generation
  is a `grid_id : String` input.
* Python dict results `{"success": ..., "message": ...}` are `Except String α`
  with the source's literal failure messages.
-/

/-- Order side; the source stores it under the dict key `"type"` with values
`"buy"` / `"sell"`. -/
inductive Side where
  | buy
  | sell
deriving DecidableEq, Repr

/-- Order status; the source uses the strings `"open"` / `"filled"`. -/
inductive OrderStatus where
  | open_
  | filled
deriving DecidableEq, Repr

/-- Grid lifecycle status; the source uses the strings `"created"`,
`"active"`, `"stopping"`, `"stopped"`. -/
inductive GridStatus where
  | created
  | active
  | stopping
  | stopped
deriving DecidableEq, Repr

/-- One tracked order of a grid — the dicts appended to `grid["orders"]`
in `start_grid` and `_monitor_grid`. -/
structure GridOrder where
  side : Side
  price : ℚ
  size : ℚ
  order_id : Nat
  status : OrderStatus
  filled_at : Option ℚ
deriving DecidableEq, Repr

/-- The grid configuration dict built in `create_grid` and mutated by the
lifecycle methods. Keys absent at creation (`started_at`, `stopped_at`)
are `Option` fields initialised to `none`, matching `grid.get(...)`. -/
structure Grid where
  id : String
  symbol : String
  upper_price : ℚ
  lower_price : ℚ
  num_grids : Int
  price_levels : List ℚ
  investment : ℚ
  size_per_grid : ℚ
  is_perp : Bool
  leverage : Int
  take_profit : Option ℚ
  stop_loss : Option ℚ
  active : Bool
  orders : List GridOrder
  created_at : ℚ
  status : GridStatus
  started_at : Option ℚ
  stopped_at : Option ℚ
deriving DecidableEq, Repr

/-- Engine state: `active_grids` (dict keyed by grid id) and `grid_tasks`
(dict keyed by grid id; only the key set matters for the model, as the task
handles themselves are opaque). -/
structure EngineState where
  grids : List (String × Grid)
  tasks : List String
deriving DecidableEq, Repr

/-- Dictionary lookup on the grid registry (`self.active_grids[grid_id]` /
`grid_id in self.active_grids`). -/
def lookupGrid : List (String × Grid) → String → Option Grid
  | [], _ => none
  | (k, g) :: rest, gid => if k = gid then some g else lookupGrid rest gid

/-- Dictionary assignment on the grid registry
(`self.active_grids[grid_id] = grid`): replaces the binding if the key is
present, otherwise adds it. -/
def setGrid : List (String × Grid) → String → Grid → List (String × Grid)
  | [], gid, g => [(gid, g)]
  | (k, g') :: rest, gid, g =>
      if k = gid then (gid, g) :: rest else (k, g') :: setGrid rest gid g

/-- Dictionary assignment on the task table
(`self.grid_tasks[grid_id] = monitor_task`): at most one entry per key. -/
def addTask (l : List String) (gid : String) : List String :=
  if gid ∈ l then l else gid :: l

/-- Outcome of one limit-order placement call against the gateway:
`ok oid` is a `{"success": True}` response whose `data.order_id` is `oid`
(the source's `_extract_order_id` returns `None` when the field is absent),
`err` is a `{"success": False}` response, `exn` is a raised exception
(caught by the source's `try/except`). -/
inductive PlaceOutcome where
  | ok (oid : Option Nat)
  | err
  | exn
deriving DecidableEq, Repr

/-- A placement is confirmed by the gateway when the response reports
success and carries an order id. -/
def confirmed : PlaceOutcome → Bool
  | .ok (some _) => true
  | _ => false

/-- Outcome of the market-probe price discovery in `start_grid` /
`_monitor_grid`: `ok p` is a successful probe whose `data.price` is `p`
(the source substitutes `0` when the field is missing), `err` a failed
probe, `exn` a raised exception. -/
inductive Discovery where
  | ok (price : ℚ)
  | err
  | exn
deriving DecidableEq, Repr

/-- Outcome of the `cancel_all_orders` gateway call in `stop_grid`. -/
inductive CancelOutcome where
  | ok
  | err
  | exn
deriving DecidableEq, Repr

/-- Embedding of `GridTrading.create_grid` (src/utils.py:185-245).
The generated uuid-based id and `time.time()` are the `grid_id` / `now`
inputs. -/
def create_grid (st : EngineState) (grid_id : String) (symbol : String)
    (upper_price lower_price : ℚ) (num_grids : Int) (total_investment : ℚ)
    (is_perp : Bool) (leverage : Int) (take_profit stop_loss : Option ℚ)
    (now : ℚ) : EngineState × Except String String :=
  if upper_price ≤ lower_price then
    (st, .error "Upper price must be greater than lower price")
  else if num_grids < 2 then
    (st, .error "Number of grids must be at least 2")
  else
    let price_step := (upper_price - lower_price) / ((num_grids : ℚ) - 1)
    let price_levels :=
      (List.range num_grids.toNat).map (fun i : ℕ => lower_price + (i : ℚ) * price_step)
    let size_per_grid := total_investment / (num_grids : ℚ)
    let g : Grid :=
      { id := grid_id
        symbol := symbol
        upper_price := upper_price
        lower_price := lower_price
        num_grids := num_grids
        price_levels := price_levels
        investment := total_investment
        size_per_grid := size_per_grid
        is_perp := is_perp
        leverage := leverage
        take_profit := take_profit
        stop_loss := stop_loss
        active := false
        orders := []
        created_at := now
        status := .created
        started_at := none
        stopped_at := none }
    ({ st with grids := setGrid st.grids grid_id g }, .ok grid_id)

/-- Embedding of `GridTrading._extract_order_id` combined with the
placement-handling pattern of `start_grid` / `_monitor_grid`: an order dict
is built and kept only when the gateway response reports success and an
order id can be extracted; failed responses and raised exceptions produce
nothing (they are only logged in the source). -/
def mk_order (out : PlaceOutcome) (side : Side) (price size : ℚ) : Option GridOrder :=
  match out with
  | .ok (some oid) =>
      some { side := side, price := price, size := size, order_id := oid,
             status := .open_, filled_at := none }
  | _ => none

/-- Result of one of `start_grid`'s two placement loops: the orders that
were confirmed and kept, the trace of placement attempts actually sent to
the gateway (side, price, size), and the gateway call counter after the
loop. -/
structure PlaceResult where
  orders : List GridOrder
  trace : List (Side × ℚ × ℚ)
  calls : Nat
deriving DecidableEq, Repr

/-- Embedding of each of `start_grid`'s two placement loops
(src/utils.py:299-358): for every level satisfying `pred`, compute
`size = size_per_grid / price`, send one placement to the gateway (consuming
one oracle outcome at the running counter `k`), and keep the order only when
the gateway confirmed it; other levels are skipped without a gateway call. -/
def place_loop (oracle : Nat → PlaceOutcome) (pred : ℚ → Bool) (side : Side)
    (spg : ℚ) : List ℚ → Nat → PlaceResult
  | [], k => ⟨[], [], k⟩
  | p :: rest, k =>
    if pred p then
      let r := place_loop oracle pred side spg rest (k + 1)
      match mk_order (oracle k) side p (spg / p) with
      | some o => ⟨o :: r.orders, (side, p, spg / p) :: r.trace, r.calls⟩
      | none => ⟨r.orders, (side, p, spg / p) :: r.trace, r.calls⟩
    else place_loop oracle pred side spg rest k

/-- Embedding of `start_grid`'s price-discovery block (src/utils.py:256-293):
a failed or raising probe aborts with the source's message, and a probe that
reports success but price `0` (the default for a missing `data.price`) also
aborts. -/
def discover : Discovery → Except String ℚ
  | .ok p => if p = 0 then .error "Failed to get current market price" else .ok p
  | .err => .error "Failed to get market data"
  | .exn => .error "Error getting market price"

/-- Embedding of `GridTrading.start_grid` (src/utils.py:247-374).
Buy orders are attempted for every level strictly below the discovered
price, then sell orders for every level strictly above it; the confirmed
orders replace `grid["orders"]`, the grid becomes active, and a monitoring
task is registered under the grid id. -/
def start_grid (st : EngineState) (gid : String) (disc : Discovery)
    (oracle : Nat → PlaceOutcome) (now : ℚ) : EngineState × Except String Nat :=
  match lookupGrid st.grids gid with
  | none => (st, .error "Grid not found")
  | some g =>
    if g.active then (st, .error "Grid already active")
    else
      match discover disc with
      | .error m => (st, .error m)
      | .ok current_price =>
        let b := place_loop oracle (fun p => decide (p < current_price)) .buy
          g.size_per_grid g.price_levels 0
        let s := place_loop oracle (fun p => decide (p > current_price)) .sell
          g.size_per_grid g.price_levels b.calls
        let grid_orders := b.orders ++ s.orders
        let g' := { g with orders := grid_orders, active := true,
                           status := .active, started_at := some now }
        (⟨setGrid st.grids gid g', addTask st.tasks gid⟩, .ok grid_orders.length)

/-- Order size the engine uses at a level of price `p`
(`size = grid["size_per_grid"] / price` in `start_grid`, src/utils.py:302). -/
def order_size (g : Grid) (p : ℚ) : ℚ :=
  g.size_per_grid / p

/-- Embedding of `GridTrading.stop_grid` (src/utils.py:492-526).  The grid is
marked inactive and `status="stopping"` before the cancellation call; every
cancellation outcome (success, failure report, raised exception) is only
logged, after which the grid is marked `stopped` with `stopped_at` stamped
and the monitoring task handle is removed. -/
def stop_grid (st : EngineState) (gid : String) (cancel : CancelOutcome)
    (now : ℚ) : EngineState × Except String Unit :=
  match lookupGrid st.grids gid with
  | none => (st, .error "Grid not found")
  | some g =>
    if g.active = false then (st, .error "Grid already stopped")
    else
      let g1 := { g with active := false, status := GridStatus.stopping }
      let g2 :=
        match cancel with
        | .ok => { g1 with status := GridStatus.stopped, stopped_at := some now }
        | .err => { g1 with status := GridStatus.stopped, stopped_at := some now }
        | .exn => { g1 with status := GridStatus.stopped, stopped_at := some now }
      (⟨setGrid st.grids gid g2, st.tasks.erase gid⟩, .ok ())

/-- Status snapshot returned by `get_grid_status` (src/utils.py:549-569). -/
structure StatusSnapshot where
  id : String
  symbol : String
  status : GridStatus
  active : Bool
  upper_price : ℚ
  lower_price : ℚ
  num_grids : Int
  investment : ℚ
  is_perp : Bool
  leverage : Int
  take_profit : Option ℚ
  stop_loss : Option ℚ
  filled_orders : Nat
  open_orders : Nat
  estimated_pnl : ℚ
  created_at : ℚ
  started_at : Option ℚ
  stopped_at : Option ℚ
deriving DecidableEq, Repr

/-- Embedding of `GridTrading.get_grid_status` (src/utils.py:528-569), a pure
read: the Python body contains no assignment to engine state.  The source
returns `estimated_pnl if filled_orders else 0`, i.e. the sell-minus-buy
volume when at least one filled order exists and literal `0` otherwise. -/
def get_grid_status (st : EngineState) (gid : String) :
    Except String StatusSnapshot :=
  match lookupGrid st.grids gid with
  | none => .error "Grid not found"
  | some g =>
    let filled_orders := g.orders.filter (fun o => decide (o.status = .filled))
    let open_orders := g.orders.filter (fun o => decide (o.status = .open_))
    let filled_buys := filled_orders.filter (fun o => decide (o.side = .buy))
    let filled_sells := filled_orders.filter (fun o => decide (o.side = .sell))
    let total_buy_volume := (filled_buys.map (fun o => o.size * o.price)).sum
    let total_sell_volume := (filled_sells.map (fun o => o.size * o.price)).sum
    let estimated_pnl := total_sell_volume - total_buy_volume
    .ok { id := gid
          symbol := g.symbol
          status := g.status
          active := g.active
          upper_price := g.upper_price
          lower_price := g.lower_price
          num_grids := g.num_grids
          investment := g.investment
          is_perp := g.is_perp
          leverage := g.leverage
          take_profit := g.take_profit
          stop_loss := g.stop_loss
          filled_orders := filled_orders.length
          open_orders := open_orders.length
          estimated_pnl := if filled_orders = [] then 0 else estimated_pnl
          created_at := g.created_at
          started_at := g.started_at
          stopped_at := g.stopped_at }

/-- Embedding of `GridTrading.modify_grid` (src/utils.py:628-647): a partial
update — each of the two exit thresholds is overwritten only when the caller
supplied a value (`if take_profit is not None:` in the source). -/
def modify_grid (st : EngineState) (gid : String)
    (take_profit stop_loss : Option ℚ) :
    EngineState × Except String (Option ℚ × Option ℚ) :=
  match lookupGrid st.grids gid with
  | none => (st, .error "Grid not found")
  | some g =>
    let g1 := match take_profit with
      | some t => { g with take_profit := some t }
      | none => g
    let g2 := match stop_loss with
      | some s => { g1 with stop_loss := some s }
      | none => g1
    ({ st with grids := setGrid st.grids gid g2 },
     .ok (g2.take_profit, g2.stop_loss))

/-- Python truthiness of an optional numeric threshold, as tested by
`if grid["take_profit"] or grid["stop_loss"]:` — `None` and `0` are falsy,
every other number is truthy. -/
def truthy : Option ℚ → Bool
  | none => false
  | some x => decide (x ≠ 0)

/-- The take-profit trigger test
`if grid["take_profit"] and current_price >= grid["take_profit"]:`
(src/utils.py:473): the threshold must be truthy and reached. -/
def tp_triggers : Option ℚ → ℚ → Bool
  | none, _ => false
  | some t, cp => decide (t ≠ 0) && decide (cp ≥ t)

/-- The stop-loss trigger test
`if grid["stop_loss"] and current_price <= grid["stop_loss"]:`
(src/utils.py:478). -/
def sl_triggers : Option ℚ → ℚ → Bool
  | none, _ => false
  | some s, cp => decide (s ≠ 0) && decide (cp ≤ s)

/-- Embedding of the exit-condition block of `_monitor_grid`
(src/utils.py:454-483).  Returns `(probed, trigger)`: `probed` is whether a
market-probe order was sent at all (the block is guarded by the truthiness
of the two thresholds), `trigger` is whether `stop_grid` was invoked.  A
probe failure, raised exception, or reported price `0` (or negative, per
`if current_price > 0:`) is caught and only logged. -/
def exit_step (take_profit stop_loss : Option ℚ) (disc : Discovery) :
    Bool × Bool :=
  if truthy take_profit || truthy stop_loss then
    match disc with
    | .ok cp =>
      if cp > 0 then
        if tp_triggers take_profit cp then (true, true)
        else if sl_triggers stop_loss cp then (true, true)
        else (true, false)
      else (true, false)
    | .err => (true, false)
    | .exn => (true, false)
  else (false, false)

/-- Marking an order filled in place (src/utils.py:412-413). -/
def fill_order (o : GridOrder) (now : ℚ) : GridOrder :=
  { o with status := .filled, filled_at := some now }

/-- The opposite side re-quoted after a fill
(`opposite_type = "sell" if order["type"] == "buy" else "buy"`). -/
def opposite : Side → Side
  | .buy => .sell
  | .sell => .buy

/-- Embedding of the fill-detection loop of `_monitor_grid`
(src/utils.py:409-452): `for order in grid["orders"]:` iterates by index
over a list that the loop body itself may extend (Python list iterators see
elements appended during iteration), so the loop is modelled index by index
with a fuel bound; `none` means the loop had not terminated within `fuel`
iterations.  Each visited order that is `open` and whose exchange id is
absent from the fetched open-order id set is marked filled in place and an
opposite-side placement at the same price and size is attempted (consuming
one oracle outcome); a confirmed placement appends a new open order to the
very list being iterated. -/
def monitor_fill_loop (oracle : Nat → PlaceOutcome) (open_ids : List Nat)
    (now : ℚ) : Nat → List GridOrder → Nat → Nat →
    Option (List GridOrder × Nat)
  | 0, _, _, _ => none
  | fuel + 1, orders, i, k =>
    if h : i < orders.length then
      if orders[i].status = .open_ ∧ orders[i].order_id ∉ open_ids then
        match mk_order (oracle k) (opposite orders[i].side) orders[i].price
            orders[i].size with
        | some newo =>
            monitor_fill_loop oracle open_ids now fuel
              ((orders.set i (fill_order orders[i] now)) ++ [newo]) (i + 1) (k + 1)
        | none =>
            monitor_fill_loop oracle open_ids now fuel
              (orders.set i (fill_order orders[i] now)) (i + 1) (k + 1)
      else monitor_fill_loop oracle open_ids now fuel orders (i + 1) k
    else some (orders, k)

/-- One polling cycle of `_monitor_grid` (src/utils.py:392-486) at the grid
level.  `fetch` is the `get_open_orders` result (`none` = fetch failure, in
which case the source sleeps and retries with no state change and no exit
probe).  Returns the updated grid together with the `(probed, trigger)`
flags of the exit-condition block; `none` propagates fill-loop fuel
exhaustion. -/
def monitor_cycle (g : Grid) (fetch : Option (List Nat))
    (oracle : Nat → PlaceOutcome) (disc : Discovery) (now : ℚ) (fuel : Nat) :
    Option (Grid × Bool × Bool) :=
  match fetch with
  | none => some (g, false, false)
  | some open_ids =>
    match monitor_fill_loop oracle open_ids now fuel g.orders 0 0 with
    | none => none
    | some (orders', _) =>
      let g' := { g with orders := orders' }
      let ex := exit_step g'.take_profit g'.stop_loss disc
      some (g', ex.1, ex.2)

/-- One order evolving into another under the monitoring loop: either
unchanged, or the same order with its status flipped from open to filled in
place (side, price, size and exchange id untouched). -/
def evolves (o o' : GridOrder) : Prop :=
  o' = o ∨ (o'.side = o.side ∧ o'.price = o.price ∧ o'.size = o.size ∧
            o'.order_id = o.order_id ∧ o.status = .open_ ∧ o'.status = .filled)

/-- An orders list evolving into another: it never shrinks, and every
originally present position is either unchanged or filled in place. -/
def ordersEvolve (old new : List GridOrder) : Prop :=
  old.length ≤ new.length ∧
  ∀ j (hj : j < old.length) (hj' : j < new.length), evolves old[j] new[j]

/-- The sequence of gateway responses consumed by `n` consecutive placement
calls starting at call counter `k`. -/
def oracleSeq (oracle : Nat → PlaceOutcome) (k n : Nat) : List PlaceOutcome :=
  (List.range n).map (fun j => oracle (k + j))

/-- A concrete running grid used to exercise the lifecycle operations on
closed inputs: two levels `[90, 110]`, active with one open resting buy. -/
def gActive : Grid :=
  { id := "G"
    symbol := "X"
    upper_price := 110
    lower_price := 90
    num_grids := 2
    price_levels := [90, 110]
    investment := 500
    size_per_grid := 250
    is_perp := false
    leverage := 1
    take_profit := none
    stop_loss := none
    active := true
    orders := [{ side := .buy, price := 90, size := 250 / 90, order_id := 1,
                 status := .open_, filled_at := none }]
    created_at := 0
    status := GridStatus.active
    started_at := some 1
    stopped_at := none }

/-- Engine state holding `gActive` under id `"G"` with its monitoring task
registered. -/
def stActive : EngineState := ⟨[("G", gActive)], ["G"]⟩

/-- A concrete resting buy at the spec's example level (price 95, size
100/95), used as the monitoring loop's input. -/
def buy95 : GridOrder :=
  { side := .buy, price := 95, size := 100 / 95, order_id := 1,
    status := .open_, filled_at := none }

/-- The spec's example grid, written with its derived fields already
evaluated (levels `[90, 95, 100, 105, 110]`, per-level investment 100),
inactive and never started. -/
def grid5 : Grid :=
  { id := "G"
    symbol := "BTC/USDC"
    upper_price := 110
    lower_price := 90
    num_grids := 5
    price_levels := [90, 95, 100, 105, 110]
    investment := 500
    size_per_grid := 100
    is_perp := false
    leverage := 1
    take_profit := none
    stop_loss := none
    active := false
    orders := []
    created_at := 0
    status := GridStatus.created
    started_at := none
    stopped_at := none }

/-- Engine state holding the inactive example grid `grid5`. -/
def stGrid5 : EngineState := ⟨[("G", grid5)], []⟩

/-- A grid as `stop_grid` leaves it after a first run over levels
`[90, 110]`: two tracked orders, inactive, `status = stopped`. -/
def gStopped : Grid :=
  { id := "G"
    symbol := "X"
    upper_price := 110
    lower_price := 90
    num_grids := 2
    price_levels := [90, 110]
    investment := 500
    size_per_grid := 250
    is_perp := false
    leverage := 1
    take_profit := none
    stop_loss := none
    active := false
    orders := [{ side := .buy, price := 90, size := 3, order_id := 1,
                 status := .filled, filled_at := some 2 },
               { side := .sell, price := 110, size := 2, order_id := 2,
                 status := .open_, filled_at := none }]
    created_at := 0
    status := GridStatus.stopped
    started_at := some 1
    stopped_at := some 3 }

/-- Engine state holding the previously-run, now stopped grid `gStopped`. -/
def stStopped : EngineState := ⟨[("G", gStopped)], []⟩

theorem lookup_setGrid (l : List (String × Grid)) (gid : String) (g : Grid) :
    lookupGrid (setGrid l gid g) gid = some g := by
  induction l with
  | nil => simp [setGrid, lookupGrid]
  | cons hd tl ih =>
    obtain ⟨k, g'⟩ := hd
    by_cases h : k = gid <;> simp [setGrid, lookupGrid, h, ih]

theorem count_addTask (l : List String) (gid : String) (h : l.Nodup) :
    (addTask l gid).count gid = 1 := by
  unfold addTask
  by_cases hm : gid ∈ l
  · simp only [if_pos hm]
    exact List.count_eq_one_of_mem h hm
  · simp only [if_neg hm, List.count_cons_self]
    rw [List.count_eq_zero_of_not_mem hm]

theorem mem_addTask (l : List String) (gid : String) : gid ∈ addTask l gid := by
  unfold addTask
  by_cases hm : gid ∈ l <;> simp [hm]

theorem oracleSeq_succ (oracle : Nat → PlaceOutcome) (k n : Nat) :
    oracleSeq oracle k (n + 1) = oracle k :: oracleSeq oracle (k + 1) n := by
  unfold oracleSeq
  rw [List.range_succ_eq_map]
  simp only [List.map_cons, List.map_map, Nat.add_zero]
  congr 1
  have : ((fun j => oracle (k + j)) ∘ Nat.succ) = (fun j => oracle (k + 1 + j)) := by
    funext j
    simp only [Function.comp_apply]
    congr 1
    omega
  rw [this]

theorem oracleSeq_append (oracle : Nat → PlaceOutcome) (k m n : Nat) :
    oracleSeq oracle k (m + n) = oracleSeq oracle k m ++ oracleSeq oracle (k + m) n := by
  induction m generalizing k with
  | zero => simp [oracleSeq]
  | succ m ih =>
    have : m + 1 + n = (m + n) + 1 := by omega
    rw [this, oracleSeq_succ, oracleSeq_succ, ih (k + 1), List.cons_append]
    have : k + 1 + m = k + (m + 1) := by omega
    rw [this]

theorem place_loop_trace (oracle : Nat → PlaceOutcome) (pred : ℚ → Bool)
    (side : Side) (spg : ℚ) (ps : List ℚ) :
    ∀ k, (place_loop oracle pred side spg ps k).trace
      = (ps.filter pred).map (fun p => (side, p, spg / p)) := by
  induction ps with
  | nil => intro k; simp [place_loop]
  | cons p rest ih =>
    intro k
    by_cases hp : pred p
    · cases hmk : mk_order (oracle k) side p (spg / p) <;>
        simp [place_loop, hp, hmk, ih]
    · simp [place_loop, hp, ih]

theorem place_loop_calls (oracle : Nat → PlaceOutcome) (pred : ℚ → Bool)
    (side : Side) (spg : ℚ) (ps : List ℚ) :
    ∀ k, (place_loop oracle pred side spg ps k).calls
      = k + (ps.filter pred).length := by
  induction ps with
  | nil => intro k; simp [place_loop]
  | cons p rest ih =>
    intro k
    by_cases hp : pred p
    · cases hmk : mk_order (oracle k) side p (spg / p) <;>
        · simp [place_loop, hp, hmk, ih]
          omega
    · simp [place_loop, hp, ih]

theorem place_loop_orders_count (oracle : Nat → PlaceOutcome) (pred : ℚ → Bool)
    (side : Side) (spg : ℚ) (ps : List ℚ) :
    ∀ k, (place_loop oracle pred side spg ps k).orders.length
      = ((oracleSeq oracle k (ps.filter pred).length).filter
          (fun x => confirmed x)).length := by
  induction ps with
  | nil => intro k; simp [place_loop, oracleSeq]
  | cons p rest ih =>
    intro k
    by_cases hp : pred p
    · have hfl : (List.filter pred (p :: rest)).length
          = (List.filter pred rest).length + 1 := by simp [hp]
      rcases hout : oracle k with oid | _ | _
      · cases oid with
        | none =>
          simp [place_loop, hp, hout, mk_order, hfl, oracleSeq_succ,
            List.filter_cons, confirmed, ih]
        | some o =>
          simp [place_loop, hp, hout, mk_order, hfl, oracleSeq_succ,
            List.filter_cons, confirmed, ih]
      · simp [place_loop, hp, hout, mk_order, hfl, oracleSeq_succ,
          List.filter_cons, confirmed, ih]
      · simp [place_loop, hp, hout, mk_order, hfl, oracleSeq_succ,
          List.filter_cons, confirmed, ih]
    · simp [place_loop, hp, ih]

theorem filter_lt_gt_le (r : ℚ) (ps : List ℚ) :
    (ps.filter (fun p => decide (p < r))).length
      + (ps.filter (fun p => decide (p > r))).length ≤ ps.length := by
  simp only [gt_iff_lt]
  induction ps with
  | nil => simp
  | cons p rest ih =>
    by_cases h1 : p < r
    · have h2 : ¬ (r < p) := by linarith
      simp only [List.filter_cons, h1, h2]
      simp
      omega
    · by_cases h2 : r < p
      · simp only [List.filter_cons, h1, h2]
        simp
        omega
      · simp only [List.filter_cons, h1, h2]
        simp
        omega

theorem evolves_refl (o : GridOrder) : evolves o o := Or.inl rfl

theorem evolves_trans {a b c : GridOrder} (h1 : evolves a b) (h2 : evolves b c) :
    evolves a c := by
  rcases h1 with rfl | ⟨hs, hp, hz, hi, ho, hf⟩
  · exact h2
  · rcases h2 with rfl | ⟨hs2, hp2, hz2, hi2, ho2, hf2⟩
    · exact Or.inr ⟨hs, hp, hz, hi, ho, hf⟩
    · rw [hf] at ho2
      cases ho2

theorem ordersEvolve_refl (l : List GridOrder) : ordersEvolve l l :=
  ⟨le_refl _, fun _ _ _ => evolves_refl _⟩

theorem ordersEvolve_trans {a b c : List GridOrder}
    (h1 : ordersEvolve a b) (h2 : ordersEvolve b c) : ordersEvolve a c :=
  ⟨le_trans h1.1 h2.1, fun j hj hj' =>
    evolves_trans (h1.2 j hj (lt_of_lt_of_le hj h1.1))
      (h2.2 j (lt_of_lt_of_le hj h1.1) hj')⟩

theorem ordersEvolve_set_fill (orders : List GridOrder) (i : Nat) (now : ℚ)
    (hi : i < orders.length) (ho : orders[i].status = .open_) :
    ordersEvolve orders (orders.set i (fill_order orders[i] now)) := by
  refine ⟨le_of_eq (List.length_set orders i _).symm, ?_⟩
  intro j hj hj'
  rcases eq_or_ne i j with rfl | hij
  · rw [List.getElem_set_self hj']
    exact Or.inr ⟨rfl, rfl, rfl, rfl, ho, rfl⟩
  · rw [List.getElem_set_ne hij hj']
    exact evolves_refl _

theorem ordersEvolve_append (l l2 : List GridOrder) : ordersEvolve l (l ++ l2) := by
  refine ⟨by simp, ?_⟩
  intro j hj hj'
  rw [List.getElem_append_left hj]
  exact evolves_refl _

theorem monitor_fill_loop_evolves (oracle : Nat → PlaceOutcome)
    (open_ids : List Nat) (now : ℚ) :
    ∀ fuel orders i k res,
      monitor_fill_loop oracle open_ids now fuel orders i k = some res →
      ordersEvolve orders res.1 := by
  intro fuel
  induction fuel with
  | zero =>
    intro orders i k res h
    exact absurd h (by simp [monitor_fill_loop])
  | succ fuel ih =>
    intro orders i k res h
    rw [monitor_fill_loop] at h
    by_cases hi : i < orders.length
    · rw [dif_pos hi] at h
      by_cases hcond : orders[i].status = .open_ ∧ orders[i].order_id ∉ open_ids
      · rw [if_pos hcond] at h
        cases hmk : mk_order (oracle k) (opposite orders[i].side) orders[i].price
            orders[i].size with
        | some newo =>
          rw [hmk] at h
          exact ordersEvolve_trans
            (ordersEvolve_trans (ordersEvolve_set_fill orders i now hi hcond.1)
              (ordersEvolve_append _ [newo]))
            (ih _ _ _ _ h)
        | none =>
          rw [hmk] at h
          exact ordersEvolve_trans (ordersEvolve_set_fill orders i now hi hcond.1)
            (ih _ _ _ _ h)
      · rw [if_neg hcond] at h
        exact ih _ _ _ _ h
    · rw [dif_neg hi] at h
      injection h with h
      rw [← h]
      exact ordersEvolve_refl _

/-- C1: for every `createGrid` call with `upperPrice > lowerPrice` and
`numLevels ≥ 2`, the stored grid has exactly `numLevels` price levels with
`price[i] = lowerPrice + i * (upperPrice - lowerPrice) / (numLevels - 1)`,
so `price[0] = lowerPrice`, `price[numLevels-1] = upperPrice`, the levels
are pairwise distinct, and the order size used at a level of price `p` is
`(totalInvestment / numLevels) / p`. -/
theorem create_grid_levels_spec (st : EngineState) (gid symbol : String)
    (upper lower : ℚ) (n : Int) (inv : ℚ) (isp : Bool) (lev : Int)
    (tp sl : Option ℚ) (now : ℚ) (hprice : lower < upper) (hn : 2 ≤ n) :
    ∃ g,
      (create_grid st gid symbol upper lower n inv isp lev tp sl now).2 = .ok gid ∧
      lookupGrid (create_grid st gid symbol upper lower n inv isp lev tp sl now).1.grids gid
        = some g ∧
      g.price_levels.length = n.toNat ∧
      (∀ i, i < n.toNat →
        g.price_levels[i]? = some (lower + (i : ℚ) * (upper - lower) / ((n : ℚ) - 1))) ∧
      g.price_levels[0]? = some lower ∧
      g.price_levels[n.toNat - 1]? = some upper ∧
      g.price_levels.Pairwise (· ≠ ·) ∧
      (∀ p, order_size g p = inv / (n : ℚ) / p) := by
  have h1 : ¬ (upper ≤ lower) := not_le.mpr hprice
  have h2 : ¬ (n < 2) := not_lt.mpr hn
  have hn2 : (2 : ℚ) ≤ (n : ℚ) := by exact_mod_cast hn
  have hne : ((n : ℚ) - 1) ≠ 0 := by linarith
  have hstep : 0 < (upper - lower) / ((n : ℚ) - 1) :=
    div_pos (by linarith) (by linarith)
  have hnn : ((n.toNat : ℚ)) = (n : ℚ) := by
    have : ((n.toNat : ℤ)) = n := Int.toNat_of_nonneg (by omega)
    exact_mod_cast congrArg (fun z : ℤ => (z : ℚ)) this
  simp only [create_grid, if_neg h1, if_neg h2]
  refine ⟨_, by trivial, lookup_setGrid _ _ _, ?_, ?_, ?_, ?_, ?_, fun p => rfl⟩
  · simp
  · intro i hi
    simp only [List.getElem?_map, List.getElem?_range hi, Option.map_some']
    rw [mul_div_assoc]
  · have h0 : 0 < n.toNat := by omega
    simp only [List.getElem?_map, List.getElem?_range h0, Option.map_some']
    norm_num
  · have hlast : n.toNat - 1 < n.toNat := by omega
    simp only [List.getElem?_map, List.getElem?_range hlast, Option.map_some']
    have hcast : ((n.toNat - 1 : ℕ) : ℚ) = (n : ℚ) - 1 := by
      rw [Nat.cast_sub (by omega)]
      rw [hnn]; norm_num
    rw [hcast, mul_comm, div_mul_cancel₀ _ hne]
    norm_num
  · rw [List.pairwise_map]
    refine List.Pairwise.imp ?_ (List.pairwise_lt_range _)
    intro a b hab
    have : (a : ℚ) < (b : ℚ) := by exact_mod_cast hab
    have := mul_lt_mul_of_pos_right this hstep
    intro hEq
    have : (a : ℚ) * ((upper - lower) / ((n : ℚ) - 1)) =
           (b : ℚ) * ((upper - lower) / ((n : ℚ) - 1)) := by linarith [add_left_cancel hEq]
    linarith

/-- C1 witness: a concrete instantiation at the spec's example grid
(`lower=90`, `upper=110`, `numLevels=5`, `investment=500`). -/
theorem create_grid_levels_spec_witness :
    (90 : ℚ) < 110 ∧ (2 : ℤ) ≤ 5 ∧
    ∃ g,
      (create_grid ⟨[], []⟩ "G" "BTC/USDC" 110 90 5 500 false 1 none none 0).2 = .ok "G" ∧
      lookupGrid (create_grid ⟨[], []⟩ "G" "BTC/USDC" 110 90 5 500 false 1 none none 0).1.grids "G"
        = some g ∧
      g.price_levels.length = (5 : ℤ).toNat ∧
      (∀ i, i < (5 : ℤ).toNat →
        g.price_levels[i]? = some (90 + (i : ℚ) * (110 - 90) / (((5 : ℤ) : ℚ) - 1))) ∧
      g.price_levels[0]? = some 90 ∧
      g.price_levels[(5 : ℤ).toNat - 1]? = some 110 ∧
      g.price_levels.Pairwise (· ≠ ·) ∧
      (∀ p, order_size g p = 500 / ((5 : ℤ) : ℚ) / p) :=
  ⟨by norm_num, by norm_num,
   create_grid_levels_spec ⟨[], []⟩ "G" "BTC/USDC" 110 90 5 500 false 1 none none 0
     (by norm_num) (by norm_num)⟩

/-- C7: `createGrid` with `upperPrice ≤ lowerPrice` or `numLevels < 2` fails
with a validation error and leaves the engine state unchanged. -/
theorem create_grid_rejects_invalid (st : EngineState) (gid symbol : String)
    (upper lower : ℚ) (n : Int) (inv : ℚ) (isp : Bool) (lev : Int)
    (tp sl : Option ℚ) (now : ℚ) (h : upper ≤ lower ∨ n < 2) :
    (create_grid st gid symbol upper lower n inv isp lev tp sl now).1 = st ∧
    ((create_grid st gid symbol upper lower n inv isp lev tp sl now).2
        = .error "Upper price must be greater than lower price" ∨
     (create_grid st gid symbol upper lower n inv isp lev tp sl now).2
        = .error "Number of grids must be at least 2") := by
  by_cases h1 : upper ≤ lower
  · simp [create_grid, h1]
  · rcases h with h | h
    · exact absurd h h1
    · simp [create_grid, h1, h]

/-- C7 witness: inverted bounds and a single-level request are both
rejected without touching the registry. -/
theorem create_grid_rejects_invalid_witness :
    ((90 : ℚ) ≤ 110 ∨ (5 : ℤ) < 2) ∧
    ((create_grid ⟨[], []⟩ "G" "X" 90 110 5 500 false 1 none none 0).1 = ⟨[], []⟩ ∧
     ((create_grid ⟨[], []⟩ "G" "X" 90 110 5 500 false 1 none none 0).2
        = .error "Upper price must be greater than lower price" ∨
      (create_grid ⟨[], []⟩ "G" "X" 90 110 5 500 false 1 none none 0).2
        = .error "Number of grids must be at least 2")) :=
  ⟨Or.inl (by norm_num),
   create_grid_rejects_invalid ⟨[], []⟩ "G" "X" 90 110 5 500 false 1 none none 0
     (Or.inl (by norm_num))⟩

/-- C4 counterexample: a `createGrid` call whose take-profit (100) does not
exceed the upper bound (110) is not rejected — it succeeds and the grid is
stored with that take-profit, contradicting the claimed validation. -/
theorem create_grid_accepts_low_take_profit :
    (create_grid ⟨[], []⟩ "G" "BTC/USDC" 110 90 5 500 false 1 (some 100) none 0).2
      = .ok "G" ∧
    (lookupGrid (create_grid ⟨[], []⟩ "G" "BTC/USDC" 110 90 5 500 false 1
        (some 100) none 0).1.grids "G").map (fun g => (g.take_profit, g.stop_loss))
      = some (some 100, none) ∧
    (100 : ℚ) ≤ 110 := by
  refine ⟨rfl, ?_, by norm_num⟩
  rfl

/-- C4 amended: `createGrid` performs no validation of `takeProfit` or
`stopLoss` — whenever the price/level checks pass, the call succeeds and the
grid is stored with exactly the supplied thresholds (no clamping), even when
the take-profit does not exceed `upperPrice` or the stop-loss is not below
`lowerPrice`. -/
theorem create_grid_stores_thresholds_unvalidated (st : EngineState)
    (gid symbol : String) (upper lower : ℚ) (n : Int) (inv : ℚ) (isp : Bool)
    (lev : Int) (tp sl : Option ℚ) (now : ℚ)
    (hprice : lower < upper) (hn : 2 ≤ n) :
    ∃ g,
      (create_grid st gid symbol upper lower n inv isp lev tp sl now).2 = .ok gid ∧
      lookupGrid (create_grid st gid symbol upper lower n inv isp lev tp sl now).1.grids gid
        = some g ∧
      g.take_profit = tp ∧ g.stop_loss = sl := by
  have h1 : ¬ (upper ≤ lower) := not_le.mpr hprice
  have h2 : ¬ (n < 2) := not_lt.mpr hn
  simp only [create_grid, if_neg h1, if_neg h2]
  exact ⟨_, by trivial, lookup_setGrid _ _ _, rfl, rfl⟩

/-- C2: for every successful `startGrid` with discovered reference price
`r`, the engine attempts exactly one resting buy per level price strictly
below `r` (at that price, size `size_per_grid / price`) and then one resting
sell per level price strictly above `r`, attempts nothing at a level equal
to `r`, stores exactly the confirmed orders, and returns `ordersPlaced`
equal to the number of placements confirmed by the gateway, which is at most
the number of levels; unconfirmed placements are skipped without aborting
the rest. -/
theorem start_grid_ladder_spec (st : EngineState) (gid : String) (r : ℚ)
    (oracle : Nat → PlaceOutcome) (now : ℚ) (g : Grid)
    (hg : lookupGrid st.grids gid = some g) (hact : g.active = false)
    (hr : r ≠ 0) :
    ∃ n g',
      (start_grid st gid (.ok r) oracle now).2 = .ok n ∧
      lookupGrid (start_grid st gid (.ok r) oracle now).1.grids gid = some g' ∧
      (place_loop oracle (fun p => decide (p < r)) .buy g.size_per_grid
          g.price_levels 0).trace
        = (g.price_levels.filter (fun p => decide (p < r))).map
            (fun p => (Side.buy, p, g.size_per_grid / p)) ∧
      (place_loop oracle (fun p => decide (p > r)) .sell g.size_per_grid
          g.price_levels (place_loop oracle (fun p => decide (p < r)) .buy
            g.size_per_grid g.price_levels 0).calls).trace
        = (g.price_levels.filter (fun p => decide (p > r))).map
            (fun p => (Side.sell, p, g.size_per_grid / p)) ∧
      g'.orders
        = (place_loop oracle (fun p => decide (p < r)) .buy g.size_per_grid
            g.price_levels 0).orders
          ++ (place_loop oracle (fun p => decide (p > r)) .sell g.size_per_grid
            g.price_levels (place_loop oracle (fun p => decide (p < r)) .buy
              g.size_per_grid g.price_levels 0).calls).orders ∧
      n = g'.orders.length ∧
      n = ((oracleSeq oracle 0
            ((g.price_levels.filter (fun p => decide (p < r))).length
              + (g.price_levels.filter (fun p => decide (p > r))).length)).filter
            (fun x => confirmed x)).length ∧
      n ≤ g.price_levels.length ∧
      (∀ t ∈ (place_loop oracle (fun p => decide (p < r)) .buy g.size_per_grid
            g.price_levels 0).trace
          ++ (place_loop oracle (fun p => decide (p > r)) .sell g.size_per_grid
            g.price_levels (place_loop oracle (fun p => decide (p < r)) .buy
              g.size_per_grid g.price_levels 0).calls).trace,
        t.2.1 ≠ r) := by
  simp only [start_grid, hg, hact, Bool.false_eq_true, if_false, discover,
    if_neg hr]
  refine ⟨_, _, by trivial, lookup_setGrid _ _ _, place_loop_trace _ _ _ _ _ _,
    place_loop_trace _ _ _ _ _ _, rfl, rfl, ?_, ?_, ?_⟩
  · rw [List.length_append, place_loop_orders_count, place_loop_orders_count,
      place_loop_calls, oracleSeq_append, List.filter_append, List.length_append]
  · have hb := place_loop_orders_count oracle (fun p => decide (p < r)) .buy
      g.size_per_grid g.price_levels 0
    have hs := place_loop_orders_count oracle (fun p => decide (p > r)) .sell
      g.size_per_grid g.price_levels ((place_loop oracle (fun p => decide (p < r))
        .buy g.size_per_grid g.price_levels 0).calls)
    have hlen : ∀ k n, (oracleSeq oracle k n).length = n := by
      intro k n; simp [oracleSeq]
    have hb' : (place_loop oracle (fun p => decide (p < r)) .buy g.size_per_grid
        g.price_levels 0).orders.length
        ≤ (g.price_levels.filter (fun p => decide (p < r))).length := by
      rw [hb]; exact le_trans (List.length_filter_le _ _) (le_of_eq (hlen _ _))
    have hs' : (place_loop oracle (fun p => decide (p > r)) .sell g.size_per_grid
        g.price_levels ((place_loop oracle (fun p => decide (p < r)) .buy
          g.size_per_grid g.price_levels 0).calls)).orders.length
        ≤ (g.price_levels.filter (fun p => decide (p > r))).length := by
      rw [hs]; exact le_trans (List.length_filter_le _ _) (le_of_eq (hlen _ _))
    have htot := filter_lt_gt_le r g.price_levels
    rw [List.length_append]
    omega
  · intro t ht
    rw [place_loop_trace, place_loop_trace, List.mem_append] at ht
    rcases ht with ht | ht
    · obtain ⟨p, hp, rfl⟩ := List.mem_map.mp ht
      have hplt : p < r := of_decide_eq_true (List.mem_filter.mp hp).2
      exact ne_of_lt hplt
    · obtain ⟨p, hp, rfl⟩ := List.mem_map.mp ht
      have hpgt : p > r := of_decide_eq_true (List.mem_filter.mp hp).2
      exact ne_of_gt hpgt

/-- C2 witness: the spec's example — levels `[90, 95, 100, 105, 110]`,
reference price 100, every placement confirmed — stores four orders and
returns `ordersPlaced = 4` (no order at the level equal to 100). -/
theorem start_grid_ladder_spec_witness :
    ∃ n g',
      (start_grid stGrid5 "G" (.ok 100) (fun k => .ok (some k)) 1).2 = .ok n ∧
      lookupGrid (start_grid stGrid5 "G" (.ok 100)
          (fun k => .ok (some k)) 1).1.grids "G" = some g' ∧
      n = g'.orders.length ∧ n = 4 := by
  obtain ⟨n, g', h1, h2, _, _, _, hn, hcount, _, _⟩ := start_grid_ladder_spec
    stGrid5 "G" 100 (fun k => .ok (some k)) 1 grid5 rfl rfl (by norm_num)
  refine ⟨n, g', h1, h2, hn, ?_⟩
  rw [hcount]
  decide

/-- C8: whenever price discovery succeeds on an existing inactive grid,
`startGrid` returns success, sets `active = true`, `status = active`,
records `startedAt`, and registers exactly one monitoring task for the grid
id — for any oracle of placement outcomes, including one where every
placement fails. -/
theorem start_grid_activates (st : EngineState) (gid : String) (r : ℚ)
    (oracle : Nat → PlaceOutcome) (now : ℚ) (g : Grid)
    (hg : lookupGrid st.grids gid = some g) (hact : g.active = false)
    (hr : r ≠ 0) (hnodup : st.tasks.Nodup) :
    ∃ n g',
      (start_grid st gid (.ok r) oracle now).2 = .ok n ∧
      lookupGrid (start_grid st gid (.ok r) oracle now).1.grids gid = some g' ∧
      g'.active = true ∧ g'.status = GridStatus.active ∧
      g'.started_at = some now ∧ n = g'.orders.length ∧
      gid ∈ (start_grid st gid (.ok r) oracle now).1.tasks ∧
      (start_grid st gid (.ok r) oracle now).1.tasks.count gid = 1 := by
  simp only [start_grid, hg, hact, Bool.false_eq_true, if_false, discover,
    if_neg hr]
  exact ⟨_, _, by trivial, lookup_setGrid _ _ _, rfl, rfl, rfl, rfl,
    mem_addTask _ _, count_addTask _ _ hnodup⟩

/-- C8 witness: starting the freshly created example grid with an oracle
that fails every placement still activates the grid, registers its single
monitoring task, and reports `ordersPlaced = 0`. -/
theorem start_grid_activates_witness :
    ∃ n g',
      (start_grid stGrid5 "G" (.ok 100) (fun _ => .err) 1).2 = .ok n ∧
      lookupGrid (start_grid stGrid5 "G" (.ok 100)
          (fun _ => .err) 1).1.grids "G" = some g' ∧
      g'.active = true ∧ g'.status = GridStatus.active ∧
      g'.started_at = some 1 ∧
      (start_grid stGrid5 "G" (.ok 100) (fun _ => .err) 1).1.tasks.count "G" = 1 ∧
      n = 0 := by
  obtain ⟨n, g', h1, h2, h3, h4, h5, _, _, hcount⟩ := start_grid_activates
    stGrid5 "G" 100 (fun _ => .err) 1 grid5 rfl rfl (by norm_num) (by decide)
  have h0 : (start_grid stGrid5 "G" (.ok 100) (fun _ => .err) 1).2 = .ok 0 := rfl
  rw [h0] at h1
  exact ⟨n, g', by rw [h0, Except.ok.injEq]; exact Except.ok.inj h1,
    h2, h3, h4, h5, hcount, (Except.ok.inj h1).symm⟩

/-- C5: on an active grid, `stopGrid` succeeds and leaves the grid marked
`stopped`, inactive, with `stoppedAt` recorded and orders untouched, for
every cancellation outcome (gateway success, reported failure, or raised
exception); a second `stopGrid` on the same id then fails with the
not-active error and changes nothing. -/
theorem stop_grid_idempotent_safe (st : EngineState) (gid : String)
    (cancel : CancelOutcome) (now : ℚ) (g : Grid)
    (hg : lookupGrid st.grids gid = some g) (hact : g.active = true) :
    ∃ g',
      (stop_grid st gid cancel now).2 = .ok () ∧
      lookupGrid (stop_grid st gid cancel now).1.grids gid = some g' ∧
      g'.active = false ∧ g'.status = .stopped ∧ g'.stopped_at = some now ∧
      g'.orders = g.orders ∧
      (∀ cancel2 now2,
        stop_grid (stop_grid st gid cancel now).1 gid cancel2 now2
          = ((stop_grid st gid cancel now).1, .error "Grid already stopped")) := by
  have hna : ¬ (g.active = false) := by simp [hact]
  cases cancel <;>
  · simp only [stop_grid, hg, if_neg hna]
    refine ⟨_, by trivial, lookup_setGrid _ _ _, rfl, rfl, rfl, rfl, ?_⟩
    intro c2 n2
    simp [stop_grid, lookup_setGrid]

/-- C5 witness: the concrete active grid is stopped through a raising
cancellation call and still ends up `stopped`, and the second stop fails. -/
theorem stop_grid_idempotent_safe_witness :
    lookupGrid stActive.grids "G" = some gActive ∧ gActive.active = true ∧
    ∃ g',
      (stop_grid stActive "G" .exn 7).2 = .ok () ∧
      lookupGrid (stop_grid stActive "G" .exn 7).1.grids "G" = some g' ∧
      g'.active = false ∧ g'.status = .stopped ∧ g'.stopped_at = some 7 ∧
      g'.orders = gActive.orders ∧
      (∀ cancel2 now2,
        stop_grid (stop_grid stActive "G" .exn 7).1 "G" cancel2 now2
          = ((stop_grid stActive "G" .exn 7).1, .error "Grid already stopped")) :=
  ⟨rfl, rfl, stop_grid_idempotent_safe stActive "G" .exn 7 gActive rfl rfl⟩

/-- C9: `getGridStatus` on an existing grid reports `filledOrders` and
`openOrders` as the counts of stored orders with the respective status, and
`estimatedPnl` as the sum of `price*size` over filled sells minus the sum
over filled buys (the source's special case of `0` for a grid without
filled orders coincides with the empty sums).  The embedding of
`get_grid_status` is a pure function of the engine state, matching the
mutation-free source body. -/
theorem get_grid_status_counts_pnl (st : EngineState) (gid : String)
    (g : Grid) (hg : lookupGrid st.grids gid = some g) :
    ∃ s, get_grid_status st gid = .ok s ∧
      s.filled_orders
        = (g.orders.filter (fun o => decide (o.status = .filled))).length ∧
      s.open_orders
        = (g.orders.filter (fun o => decide (o.status = .open_))).length ∧
      s.estimated_pnl
        = (((g.orders.filter (fun o => decide (o.status = .filled))).filter
              (fun o => decide (o.side = .sell))).map (fun o => o.price * o.size)).sum
          - (((g.orders.filter (fun o => decide (o.status = .filled))).filter
              (fun o => decide (o.side = .buy))).map (fun o => o.price * o.size)).sum := by
  have hmul : (fun o : GridOrder => o.price * o.size)
      = (fun o : GridOrder => o.size * o.price) := by
    funext o; ring
  simp only [get_grid_status, hg]
  refine ⟨_, rfl, rfl, rfl, ?_⟩
  rw [hmul]
  by_cases hfe : g.orders.filter (fun o => decide (o.status = .filled)) = []
  · rw [if_pos hfe, hfe]
    simp
  · rw [if_neg hfe]

/-- C9 witness: on a freshly created, never-started grid the report is
`filledOrders = 0`, `openOrders = 0`, `estimatedPnl = 0`. -/
theorem get_grid_status_counts_pnl_witness :
    ∃ s, get_grid_status
        (create_grid ⟨[], []⟩ "G" "BTC/USDC" 110 90 5 500 false 1 none none 0).1 "G"
        = .ok s ∧
      s.filled_orders = 0 ∧ s.open_orders = 0 ∧ s.estimated_pnl = 0 := by
  obtain ⟨s, h1, h2, h3, h4⟩ := get_grid_status_counts_pnl
    (create_grid ⟨[], []⟩ "G" "BTC/USDC" 110 90 5 500 false 1 none none 0).1 "G" _ rfl
  exact ⟨s, h1, by simpa using h2, by simpa using h3, by simpa using h4⟩

/-- C4 amended witness: thresholds violating the claimed convention
(take-profit 100 ≤ upper 110, stop-loss 95 ≥ lower 90) are stored as-is. -/
theorem create_grid_stores_thresholds_unvalidated_witness :
    (90 : ℚ) < 110 ∧ (2 : ℤ) ≤ 5 ∧
    ∃ g,
      (create_grid ⟨[], []⟩ "G" "X" 110 90 5 500 false 1 (some 100) (some 95) 0).2
        = .ok "G" ∧
      lookupGrid (create_grid ⟨[], []⟩ "G" "X" 110 90 5 500 false 1
          (some 100) (some 95) 0).1.grids "G" = some g ∧
      g.take_profit = some 100 ∧ g.stop_loss = some 95 :=
  ⟨by norm_num, by norm_num,
   create_grid_stores_thresholds_unvalidated ⟨[], []⟩ "G" "X" 110 90 5 500 false 1
     (some 100) (some 95) 0 (by norm_num) (by norm_num)⟩

/-- C3 counterexample: the orders sequence of a grid can shrink across a
stop-then-restart, because `start_grid` assigns `grid["orders"] = grid_orders`
wholesale.  Starting from the running grid `gActive` (one tracked order),
`stop_grid` leaves the order list intact (length 1), but restarting with
every placement failing resets it to length 0 — strictly shorter. -/
theorem restart_shrinks_orders :
    (lookupGrid (stop_grid stActive "G" .ok 2).1.grids "G").map
        (fun g => g.orders.length) = some 1 ∧
    (start_grid (stop_grid stActive "G" .ok 2).1 "G" (.ok 100)
        (fun _ => .err) 3).2 = .ok 0 ∧
    (lookupGrid (start_grid (stop_grid stActive "G" .ok 2).1 "G" (.ok 100)
        (fun _ => .err) 3).1.grids "G").map (fun g => g.orders.length)
      = some 0 :=
  ⟨rfl, rfl, rfl⟩

/-- C3 amended: within a run, the monitoring loop and `stopGrid` never
shrink a grid's orders sequence — a completed monitoring cycle only appends
new orders or flips an existing order's status from open to filled in place,
and `stopGrid` leaves the sequence untouched; `startGrid`, however, replaces
the orders sequence with the freshly placed ladder, so stopping and
restarting a grid can shorten it. -/
theorem orders_evolve_monitor_stop (g : Grid) (fetch : Option (List Nat))
    (oracle : Nat → PlaceOutcome) (disc : Discovery) (now : ℚ) (fuel : Nat)
    (st : EngineState) (gid : String) (cancel : CancelOutcome) (now2 : ℚ)
    (g2 : Grid) (hg2 : lookupGrid st.grids gid = some g2) :
    (∀ res, monitor_cycle g fetch oracle disc now fuel = some res →
       ordersEvolve g.orders res.1.orders) ∧
    (∃ g3, lookupGrid (stop_grid st gid cancel now2).1.grids gid = some g3 ∧
       g3.orders = g2.orders) := by
  constructor
  · intro res h
    rcases fetch with _ | open_ids
    · simp only [monitor_cycle] at h
      injection h with h
      rw [← h]
      exact ordersEvolve_refl _
    · simp only [monitor_cycle] at h
      cases hval : monitor_fill_loop oracle open_ids now fuel g.orders 0 0 with
      | none => rw [hval] at h; cases h
      | some pr =>
        obtain ⟨orders', k'⟩ := pr
        rw [hval] at h
        injection h with h
        rw [← h]
        exact monitor_fill_loop_evolves oracle open_ids now fuel g.orders 0 0
          ⟨orders', k'⟩ hval
  · by_cases hact : g2.active = true
    · have hna : ¬ (g2.active = false) := by simp [hact]
      cases cancel <;>
      · simp only [stop_grid, hg2, if_neg hna]
        exact ⟨_, lookup_setGrid _ _ _, rfl⟩
    · have hna : g2.active = false := by
        cases hb : g2.active
        · rfl
        · exact absurd hb hact
      simp only [stop_grid, hg2, if_pos hna]
      exact ⟨g2, rfl, rfl⟩

/-- C3 amended witness: a concrete completed cycle on the running grid
`gActive` (its open order fills with no replacement confirmed) evolves the
orders without shrinking, and stopping `stActive` preserves the sequence. -/
theorem orders_evolve_monitor_stop_witness :
    lookupGrid stActive.grids "G" = some gActive ∧
    ((∀ res, monitor_cycle gActive (some []) (fun _ => .err) (.ok 100) 5 3
        = some res → ordersEvolve gActive.orders res.1.orders) ∧
     (∃ g3, lookupGrid (stop_grid stActive "G" .err 9).1.grids "G" = some g3 ∧
        g3.orders = gActive.orders)) :=
  ⟨rfl, orders_evolve_monitor_stop gActive (some []) (fun _ => .err) (.ok 100)
    5 3 stActive "G" .err 9 gActive rfl⟩

/-- C6: the monitoring loop's fill handling is broken by mutation during
iteration — `for order in grid["orders"]` iterates over the very list the
body appends to, and the just-placed opposite order (whose fresh exchange id
is absent from the open-order set fetched at the start of the cycle) is
itself visited and marked filled in the same cycle.  On the spec scenario
(one resting buy at 95 detected filled, its replacement sell confirmed, next
placement failing) the cycle ends with 2 filled and 0 open orders instead of
the specified 1 filled and 1 open; with an always-confirming gateway the
loop keeps spawning orders and never terminates (any fuel is exhausted). -/
theorem monitor_fill_cascade_bug :
    (monitor_fill_loop (fun k => if k = 0 then .ok (some 2) else .err) [] 100 10
        [buy95] 0 0).map
      (fun res => ((res.1.filter (fun o => decide (o.status = .filled))).length,
                   (res.1.filter (fun o => decide (o.status = .open_))).length,
                   res.1.length))
      = some (2, 0, 2) ∧
    monitor_fill_loop (fun k => .ok (some (k + 2))) [] 100 10 [buy95] 0 0
      = none :=
  ⟨rfl, rfl⟩

/-- C10: when takeProfit and stopLoss are each unset or `0`, a monitoring
cycle performs no exit-price probe at all and triggers no stop (the source
tests the thresholds for truthiness, and `0` is falsy); more generally a
threshold whose numeric value is `0` — which `modifyGrid` stores verbatim —
can never trigger an exit. -/
theorem zero_thresholds_disable_exits (g : Grid) (fetch : Option (List Nat))
    (oracle : Nat → PlaceOutcome) (disc : Discovery) (now : ℚ) (fuel : Nat)
    (cp : ℚ) (st : EngineState) (gid : String) (g2 : Grid)
    (htp : g.take_profit = none ∨ g.take_profit = some 0)
    (hsl : g.stop_loss = none ∨ g.stop_loss = some 0)
    (hg2 : lookupGrid st.grids gid = some g2) :
    exit_step g.take_profit g.stop_loss disc = (false, false) ∧
    (∀ res, monitor_cycle g fetch oracle disc now fuel = some res →
       res.2.1 = false ∧ res.2.2 = false) ∧
    tp_triggers (some 0) cp = false ∧
    sl_triggers (some 0) cp = false ∧
    (∃ g3, lookupGrid (modify_grid st gid (some 0) (some 0)).1.grids gid
        = some g3 ∧ g3.take_profit = some 0 ∧ g3.stop_loss = some 0) := by
  have hex : exit_step g.take_profit g.stop_loss disc = (false, false) := by
    rcases htp with h | h <;> rcases hsl with h' | h' <;>
      simp [exit_step, truthy, h, h']
  refine ⟨hex, ?_, by simp [tp_triggers], by simp [sl_triggers], ?_⟩
  · intro res h
    rcases fetch with _ | open_ids
    · simp only [monitor_cycle] at h
      injection h with h
      rw [← h]
      exact ⟨rfl, rfl⟩
    · simp only [monitor_cycle] at h
      cases hval : monitor_fill_loop oracle open_ids now fuel g.orders 0 0 with
      | none => rw [hval] at h; cases h
      | some pr =>
        obtain ⟨orders', k'⟩ := pr
        rw [hval] at h
        injection h with h
        rw [← h]
        have : exit_step ({ g with orders := orders' } : Grid).take_profit
            ({ g with orders := orders' } : Grid).stop_loss disc
            = (false, false) := hex
        rw [this]
        exact ⟨rfl, rfl⟩
  · simp only [modify_grid, hg2]
    exact ⟨_, lookup_setGrid _ _ _, rfl, rfl⟩

/-- C10 witness: the example grid (no thresholds configured) probes no exit
price on a concrete cycle, a zero threshold never triggers at reference
price 50, and `modifyGrid` does store literal zeros. -/
theorem zero_thresholds_disable_exits_witness :
    (gActive.take_profit = none ∨ gActive.take_profit = some 0) ∧
    (exit_step gActive.take_profit gActive.stop_loss (.ok 100) = (false, false) ∧
     (∀ res, monitor_cycle gActive (some [1]) (fun _ => .err) (.ok 100) 0 3
        = some res → res.2.1 = false ∧ res.2.2 = false) ∧
     tp_triggers (some 0) 50 = false ∧
     sl_triggers (some 0) 50 = false ∧
     (∃ g3, lookupGrid (modify_grid stActive "G" (some 0) (some 0)).1.grids "G"
        = some g3 ∧ g3.take_profit = some 0 ∧ g3.stop_loss = some 0)) :=
  ⟨Or.inl rfl,
   zero_thresholds_disable_exits gActive (some [1]) (fun _ => .err) (.ok 100)
     0 3 50 stActive "G" gActive (Or.inl rfl) (Or.inl rfl) rfl⟩
